import Mathlib

/-!
Shallow embedding of the two stack variants of the gstack repository:
the functions of src/gstack.h (prefix gstack_) and of src/stack.h
(prefix stack_).  Both C headers declare the same struct

  struct gstack / struct stack { void *data; size_t size; size_t cap; size_t memb_size; };

which is embedded below as the structure gstack.  size_t is modelled as
Nat together with an explicit modulus W = 2 ^ 64 at every arithmetic
step where the C code can wrap.  The buffer is modelled by a total
function data : Nat -> alpha giving the element stored in each slot,
together with alloc, the number of element slots the current allocation
can hold (allocated bytes = alloc * memb_size).  realloc keeps the
common prefix of the old and new region, so the data function is
unchanged by a reallocation; growing exposes further slots (whose
content the model keeps as whatever the function already said, standing
for indeterminate bytes).  Allocator nondeterminism is made explicit:
each call that may allocate takes Bool arguments telling whether the
corresponding malloc / realloc call succeeds.
-/

namespace GStackModel

/-- Modulus of the modelled 64-bit size_t. -/
def W : Nat := 2 ^ 64

/-- SIZE_MAX of the modelled platform. -/
def SIZE_MAX : Nat := W - 1

/-- BUFSIZ of stdio.h on the modelled platform (glibc value). -/
def BUFSIZ : Nat := 8192

/-- The struct gstack / struct stack of both headers. -/
@[ext]
structure gstack (α : Type) where
  data : Nat → α
  alloc : Nat
  size : Nat
  cap : Nat
  memb_size : Nat

variable {α : Type}

/-- gstack_is_full of src/gstack.h. -/
def gstack_is_full (s : gstack α) : Bool :=
  s.size == s.cap

/-- gstack_is_empty of src/gstack.h. -/
def gstack_is_empty (s : gstack α) : Bool :=
  s.size == 0

/-- gstack_peek of src/gstack.h: NULL on empty, else a pointer to slot size - 1. -/
def gstack_peek (s : gstack α) : Option α :=
  if gstack_is_empty s then none else some (s.data (s.size - 1))

/-- gstack_size of src/gstack.h. -/
def gstack_size (s : gstack α) : Nat :=
  s.size

/-- stack_is_full of src/stack.h (same code as gstack_is_full). -/
def stack_is_full (s : gstack α) : Bool :=
  s.size == s.cap

/-- stack_is_empty of src/stack.h (same code as gstack_is_empty). -/
def stack_is_empty (s : gstack α) : Bool :=
  s.size == 0

/-- stack_peek of src/stack.h (same code as gstack_peek). -/
def stack_peek (s : gstack α) : Option α :=
  if stack_is_empty s then none else some (s.data (s.size - 1))

/-- stack_size of src/stack.h (same code as gstack_size). -/
def stack_size (s : gstack α) : Nat :=
  s.size

/-- gstack_create of src/gstack.h.  hdrOk models the malloc of the header,
dataOk the malloc of the buffer; junk stands for the indeterminate content
of freshly allocated memory.  Both malloc failures make the call return
NULL (the header one directly, the buffer one after freeing the header). -/
def gstack_create (hdrOk dataOk : Bool) (junk : α) (cap memb_size : Nat) :
    Option (gstack α) :=
  if cap = 0 ∨ memb_size = 0 ∨ cap > SIZE_MAX / memb_size then none
  else if hdrOk = false then none
  else if dataOk = false then none
  else some { data := fun _ => junk, alloc := cap, size := 0, cap := cap,
              memb_size := memb_size }

/-- stack_create of src/stack.h (same code as gstack_create, modulo the
local total_size temporary). -/
def stack_create (hdrOk dataOk : Bool) (junk : α) (cap memb_size : Nat) :
    Option (gstack α) :=
  if cap = 0 ∨ memb_size = 0 ∨ cap > SIZE_MAX / memb_size then none
  else if hdrOk = false then none
  else if dataOk = false then none
  else some { data := fun _ => junk, alloc := cap, size := 0, cap := cap,
              memb_size := memb_size }

/-- Common tail of both push functions: memcpy the element into slot
size, then return the incremented size converted to bool
(return ++s->size; resp. return !!++s->size;). -/
def push_write (s : gstack α) (x : α) : Bool × gstack α :=
  (((s.size + 1) % W) != 0,
   { s with data := fun i => if i = s.size then x else s.data i,
            size := (s.size + 1) % W })

/-- Common tail of the growth paths of both push functions, entered with
s.cap already set to the new capacity: the product-overflow guard
(s->cap > SIZE_MAX / s->memb_size), the realloc (success given by rok),
and the write.  On the two failure returns the already-mutated capacity
is kept, exactly as in the C code. -/
def grow_realloc (rok : Bool) (s : gstack α) (x : α) : Bool × gstack α :=
  if s.cap > SIZE_MAX / s.memb_size then (false, s)
  else if rok = false then (false, s)
  else push_write { s with alloc := s.cap } x

/-- gstack_push of src/gstack.h.  When full: if cap > SIZE_MAX / 2 fail
outright (no linear fallback in this variant), else double cap and
continue with the shared growth tail. -/
def gstack_push (rok : Bool) (s : gstack α) (x : α) : Bool × gstack α :=
  if s.size ≥ s.cap then
    if s.cap > SIZE_MAX / 2 then (false, s)
    else grow_realloc rok { s with cap := s.cap * 2 % W } x
  else push_write s x

/-- stack_push of src/stack.h.  When full: if cap > SIZE_MAX / 2, try the
linear fallback cap + BUFSIZ, failing (without mutation) when that
addition wraps (the C test s->cap + BUFSIZ < s->cap); otherwise double.
Then the shared growth tail. -/
def stack_push (rok : Bool) (s : gstack α) (x : α) : Bool × gstack α :=
  if s.size ≥ s.cap then
    if s.cap > SIZE_MAX / 2 then
      if (s.cap + BUFSIZ) % W < s.cap then (false, s)
      else grow_realloc rok { s with cap := (s.cap + BUFSIZ) % W } x
    else grow_realloc rok { s with cap := s.cap * 2 % W } x
  else push_write s x

/-- gstack_pop of src/gstack.h.  NULL on empty; else decrement size, and
when the new size is nonzero and at most cap / 4: compute
new_cap = cap / 2, add 1 to cap when cap is odd (a mutation that only
survives when the realloc fails), then realloc to memb_size * new_cap
bytes; on realloc success set cap to new_cap, on failure keep everything
(except the odd-capacity increment) as is.  The returned pointer is
computed after the possible shrink. -/
def gstack_pop (rok : Bool) (s : gstack α) : Option α × gstack α :=
  if gstack_is_empty s then (none, s)
  else
    let s1 : gstack α := { s with size := s.size - 1 }
    let s2 : gstack α :=
      if s1.size ≠ 0 ∧ s1.size ≤ s1.cap / 4 then
        let new_cap := s1.cap / 2
        let s15 : gstack α :=
          if s1.cap % 2 ≠ 0 then { s1 with cap := (s1.cap + 1) % W } else s1
        if rok then { s15 with cap := new_cap, alloc := new_cap } else s15
      else s1
    (some (s2.data s1.size), s2)

/-- stack_pop of src/stack.h.  NULL on empty; else decrement size,
compute the returned pointer before any shrink, and when the new size is
nonzero and at most cap / 4: realloc to cap / 2 * memb_size bytes; on
success halve cap, on failure change nothing. -/
def stack_pop (rok : Bool) (s : gstack α) : Option α × gstack α :=
  if stack_is_empty s then (none, s)
  else
    let s1 : gstack α := { s with size := s.size - 1 }
    let top := s1.data s1.size
    let s2 : gstack α :=
      if s1.size ≠ 0 ∧ s1.size ≤ s1.cap / 4 then
        if rok then { s1 with cap := s1.cap / 2, alloc := s1.cap / 2 } else s1
      else s1
    (some top, s2)

/-- One client-visible operation on a live stack.  The Bool argument of
push and pop is the success of the realloc call that this operation may
issue. -/
inductive Op (α : Type) where
  | push : Bool → α → Op α
  | pop : Bool → Op α
  | peek : Op α
  | isFull : Op α
  | isEmpty : Op α
  | qsize : Op α

/-- Observable result of one operation. -/
inductive Out (α : Type) where
  | ob : Bool → Out α
  | ov : Option α → Out α
  | onat : Nat → Out α

/-- One step of the gstack.h variant. -/
def stepG (s : gstack α) : Op α → Out α × gstack α
  | Op.push r x => (Out.ob (gstack_push r s x).1, (gstack_push r s x).2)
  | Op.pop r => (Out.ov (gstack_pop r s).1, (gstack_pop r s).2)
  | Op.peek => (Out.ov (gstack_peek s), s)
  | Op.isFull => (Out.ob (gstack_is_full s), s)
  | Op.isEmpty => (Out.ob (gstack_is_empty s), s)
  | Op.qsize => (Out.onat (gstack_size s), s)

/-- One step of the stack.h variant. -/
def stepS (s : gstack α) : Op α → Out α × gstack α
  | Op.push r x => (Out.ob (stack_push r s x).1, (stack_push r s x).2)
  | Op.pop r => (Out.ov (stack_pop r s).1, (stack_pop r s).2)
  | Op.peek => (Out.ov (stack_peek s), s)
  | Op.isFull => (Out.ob (stack_is_full s), s)
  | Op.isEmpty => (Out.ob (stack_is_empty s), s)
  | Op.qsize => (Out.onat (stack_size s), s)

/-- Run a sequence of operations under the gstack.h variant, collecting
the outputs and the final state. -/
def runG (s : gstack α) : List (Op α) → List (Out α) × gstack α
  | [] => ([], s)
  | op :: rest =>
      ((stepG s op).1 :: (runG (stepG s op).2 rest).1,
       (runG (stepG s op).2 rest).2)

/-- Run a sequence of operations under the stack.h variant. -/
def runS (s : gstack α) : List (Op α) → List (Out α) × gstack α
  | [] => ([], s)
  | op :: rest =>
      ((stepS s op).1 :: (runS (stepS s op).2 rest).1,
       (runS (stepS s op).2 rest).2)

/-- Side condition of the equivalence claim at one step: a push may not
happen while the capacity exceeds half the size ceiling, and a pop may
not trigger a shrink while the capacity is odd. -/
def okStep (s : gstack α) : Op α → Bool
  | Op.push _ _ => decide (s.cap ≤ SIZE_MAX / 2)
  | Op.pop _ =>
      decide (¬ (s.size ≠ 0 ∧ s.size - 1 ≠ 0 ∧ s.size - 1 ≤ s.cap / 4 ∧
                 s.cap % 2 = 1))
  | _ => true

/-- Side condition of the equivalence claim along a whole trace,
evaluated along the gstack.h run. -/
def okTrace (s : gstack α) : List (Op α) → Bool
  | [] => true
  | op :: rest => okStep s op && okTrace (stepG s op).2 rest

/-! Concrete states used by the counterexamples and witnesses below.
Each is a reachable, valid stack of the C library (buffer sized for cap
elements, size at most cap). -/

/-- A full stack of one 1-byte element at capacity 1 (as left by
gstack_create 1 1 followed by one push). -/
def stC1 : gstack Nat :=
  { data := fun _ => 0, alloc := 1, size := 1, cap := 1, memb_size := 1 }

/-- A full stack whose capacity exceeds SIZE_MAX / 2: capacity and size
2 ^ 63, element size one byte. -/
def stC2 : gstack Nat :=
  { data := fun _ => 0, alloc := 2 ^ 63, size := 2 ^ 63, cap := 2 ^ 63,
    memb_size := 1 }

/-- A stack with odd capacity 5 holding 2 elements, so that the next pop
triggers the shrink path. -/
def stC3 : gstack Nat :=
  { data := fun _ => 0, alloc := 5, size := 2, cap := 5, memb_size := 1 }

/-- Same shape as stC3, reserved for the shrink-failure claim. -/
def stC4 : gstack Nat :=
  { data := fun _ => 0, alloc := 5, size := 2, cap := 5, memb_size := 1 }

/-- A full one-slot stack of 2 ^ 63-byte elements: the invariants hold,
and a push makes the doubled capacity overflow cap * memb_size. -/
def stC5 : gstack Nat :=
  { data := fun _ => 0, alloc := 1, size := 1, cap := 1, memb_size := 2 ^ 63 }

/-- An empty stack with capacity 4. -/
def stC7 : gstack Nat :=
  { data := fun _ => 0, alloc := 4, size := 0, cap := 4, memb_size := 8 }

/-- A stack holding 2 of 4 slots. -/
def stC8 : gstack Nat :=
  { data := fun i => i + 10, alloc := 4, size := 2, cap := 4, memb_size := 8 }

/-- Start state for the equivalence witness trace. -/
def stC9 : gstack Nat :=
  { data := fun _ => 0, alloc := 4, size := 0, cap := 4, memb_size := 8 }

/-- Witness trace for the equivalence claim: two pushes, a peek, a pop
that shrinks at even capacity, then the queries. -/
def opsC9 : List (Op Nat) :=
  [Op.push true 1, Op.push true 2, Op.peek, Op.pop true, Op.isEmpty,
   Op.isFull, Op.qsize]

/-- A stack holding 1 of 4 slots (not full). -/
def stC10 : gstack Nat :=
  { data := fun _ => 0, alloc := 4, size := 1, cap := 4, memb_size := 8 }

/-! Theorems settling the claims. -/

/-- Claim C1: a failing push is claimed to leave length, capacity and
buffer contents unchanged.  Evaluation at the failing input: on stC1
(cap 1, size 1) a push whose growth realloc fails returns false but
leaves the capacity doubled to 2 in both variants, because the code
mutates s->cap before the overflow check and the realloc. -/
theorem C1_push_failure_eval :
    stC1.cap = 1 ∧ stC1.size = 1 ∧
    (gstack_push false stC1 7).1 = false ∧
    (gstack_push false stC1 7).2.cap = 2 ∧
    (gstack_push false stC1 7).2.size = 1 ∧
    (stack_push false stC1 7).1 = false ∧
    (stack_push false stC1 7).2.cap = 2 := by
  decide

/-- Claim C2, counterexample: stC2 is full with capacity 2 ^ 63 above
SIZE_MAX / 2; linear growth by BUFSIZ would not overflow, yet
gstack_push fails (returning false with the state unchanged) instead of
growing linearly, refuting the claim for the gstack.h variant. -/
theorem C2_cex :
    stC2.size = stC2.cap ∧ SIZE_MAX / 2 < stC2.cap ∧
    stC2.cap + BUFSIZ ≤ SIZE_MAX ∧
    (gstack_push true stC2 0).1 = false ∧
    (gstack_push true stC2 0).2.cap = stC2.cap ∧
    (gstack_push true stC2 0).2.size = stC2.size := by
  decide

/-- Claim C3, counterexample: on stC3 (odd capacity 5, size 2) a pop with
successful shrink realloc sets the capacity to 5 / 2 = 2 in both
variants, not to the claimed rounded-up 5 / 2 + 1 = 3. -/
theorem C3_cex :
    stC3.cap = 5 ∧ stC3.size - 1 ≠ 0 ∧ stC3.size - 1 ≤ stC3.cap / 4 ∧
    (gstack_pop true stC3).2.cap = 2 ∧
    (stack_pop true stC3).2.cap = 2 ∧
    ¬ (gstack_pop true stC3).2.cap = stC3.cap / 2 + 1 ∧
    ¬ (stack_pop true stC3).2.cap = stC3.cap / 2 + 1 := by
  decide

/-- Claim C4: a pop whose shrink realloc fails is claimed to leave the
capacity unchanged.  Evaluation at the failing input: on stC4 (odd
capacity 5, size 2) the gstack.h pop still succeeds (returns the element
and decrements size) but leaves cap = 6, because gstack_pop increments
the odd capacity before the realloc and the failure branch keeps the
increment, contradicting the adjacent comment that nothing is changed. -/
theorem C4_shrink_failure_eval :
    stC4.cap = 5 ∧
    (gstack_pop false stC4).1 = some 0 ∧
    (gstack_pop false stC4).2.size = 1 ∧
    (gstack_pop false stC4).2.cap = 6 := by
  decide

/-- Claim C5: the invariants are claimed to be preserved by every push.
Evaluation at the failing input: stC5 satisfies both invariants
(size at most cap, cap * memb_size at most SIZE_MAX), yet after the
failing push the mutated capacity makes cap * memb_size = 2 ^ 64
overflow the size representation, in both variants. -/
theorem C5_invariant_violation_eval :
    stC5.size ≤ stC5.cap ∧ stC5.cap * stC5.memb_size ≤ SIZE_MAX ∧
    (gstack_push true stC5 0).1 = false ∧
    SIZE_MAX <
      (gstack_push true stC5 0).2.cap * (gstack_push true stC5 0).2.memb_size ∧
    (stack_push true stC5 0).1 = false ∧
    SIZE_MAX <
      (stack_push true stC5 0).2.cap * (stack_push true stC5 0).2.memb_size := by
  decide

/-- The overflow guard cap > SIZE_MAX / m of the C code detects exactly
the products that exceed SIZE_MAX, for nonzero m. -/
lemma div_guard_iff (m c : Nat) (hm : 0 < m) :
    SIZE_MAX / m < c ↔ SIZE_MAX < c * m :=
  Nat.div_lt_iff_lt_mul hm

/-- Claim C6: create fails (for every allocator outcome) exactly on zero
capacity, zero element size, or an overflowing capacity-size product;
on success the stack has length 0, capacity as requested, and a buffer
of cap slots of memb bytes, i.e. exactly cap * memb bytes. -/
theorem C6_create_spec (hdrOk dataOk : Bool) (junk : α) (cap memb : Nat) :
    ((cap = 0 ∨ memb = 0 ∨ SIZE_MAX < cap * memb) →
      gstack_create hdrOk dataOk junk cap memb = none ∧
      stack_create hdrOk dataOk junk cap memb = none) ∧
    (cap ≠ 0 → memb ≠ 0 → cap * memb ≤ SIZE_MAX →
      gstack_create true true junk cap memb =
        some { data := fun _ => junk, alloc := cap, size := 0, cap := cap,
               memb_size := memb } ∧
      stack_create true true junk cap memb =
        some { data := fun _ => junk, alloc := cap, size := 0, cap := cap,
               memb_size := memb } ∧
      cap * memb = cap * memb) := by
  constructor
  · rintro (h | h | h)
    · simp [gstack_create, stack_create, h]
    · simp [gstack_create, stack_create, h]
    · rcases Nat.eq_zero_or_pos memb with hm | hm
      · simp [gstack_create, stack_create, hm]
      · have hg : SIZE_MAX / memb < cap := (div_guard_iff memb cap hm).mpr h
        simp [gstack_create, stack_create, hg]
  · intro h1 h2 h3
    have hm : 0 < memb := Nat.pos_of_ne_zero h2
    have hg : ¬ SIZE_MAX / memb < cap := by
      rw [div_guard_iff memb cap hm]
      omega
    refine ⟨?_, ?_, rfl⟩ <;> simp [gstack_create, stack_create, h1, h2, hg]

/-- Claim C6 witness: instantiation at the rejected request (0, 8) and at
the accepted request (4, 8). -/
theorem C6_create_spec_witness :
    (gstack_create true true 0 0 8 = none ∧
     stack_create true true 0 0 8 = none) ∧
    (gstack_create true true 0 4 8 =
      some { data := fun _ => 0, alloc := 4, size := 0, cap := 4,
             memb_size := 8 } ∧
     stack_create true true 0 4 8 =
      some { data := fun _ => 0, alloc := 4, size := 0, cap := 4,
             memb_size := 8 }) := by
  refine ⟨(C6_create_spec true true 0 0 8).1 (Or.inl rfl), ?_, ?_⟩
  · exact ((C6_create_spec true true (0 : Nat) 4 8).2 (by decide) (by decide)
      (by decide)).1
  · exact ((C6_create_spec true true (0 : Nat) 4 8).2 (by decide) (by decide)
      (by decide)).2.1

/-- Claim C7: a pop on an empty stack returns NULL and leaves the whole
state (in particular the reported size) unchanged, in both variants, for
every allocator outcome. -/
theorem C7_pop_empty (s : gstack α) (rok : Bool) (h : s.size = 0) :
    gstack_pop rok s = (none, s) ∧ stack_pop rok s = (none, s) ∧
    gstack_size s = gstack_size s := by
  refine ⟨?_, ?_, rfl⟩ <;>
    simp [gstack_pop, stack_pop, gstack_is_empty, stack_is_empty, h]

/-- Claim C7 witness: instantiation at the empty stack stC7. -/
theorem C7_pop_empty_witness :
    stC7.size = 0 ∧ gstack_pop true stC7 = (none, stC7) ∧
    stack_pop true stC7 = (none, stC7) :=
  ⟨rfl, (C7_pop_empty stC7 true rfl).1, (C7_pop_empty stC7 true rfl).2.1⟩

/-- Value returned by gstack_pop on a non-empty stack: the element in
slot size - 1 (the data function is never modified by pop, and a
successful shrink preserves the occupied prefix of the buffer). -/
lemma gstack_pop_fst (rok : Bool) (s : gstack α) (h : s.size ≠ 0) :
    (gstack_pop rok s).1 = some (s.data (s.size - 1)) := by
  have he : gstack_is_empty s = false := by simp [gstack_is_empty, h]
  simp only [gstack_pop, he, Bool.false_eq_true, if_false]
  split
  · split
    · split <;> rfl
    · split <;> rfl
  · rfl

/-- Value returned by stack_pop on a non-empty stack: the element in
slot size - 1, read before any shrink. -/
lemma stack_pop_fst (rok : Bool) (s : gstack α) (h : s.size ≠ 0) :
    (stack_pop rok s).1 = some (s.data (s.size - 1)) := by
  have he : stack_is_empty s = false := by simp [stack_is_empty, h]
  simp [stack_pop, he]

/-- Claim C8: on a non-empty stack, the value peek returns immediately
before a pop equals the value that pop returns, in both variants, for
every allocator outcome. -/
theorem C8_peek_pop (s : gstack α) (rok : Bool) (h : s.size ≠ 0) :
    gstack_peek s = (gstack_pop rok s).1 ∧
    stack_peek s = (stack_pop rok s).1 := by
  have he : gstack_is_empty s = false := by simp [gstack_is_empty, h]
  have he2 : stack_is_empty s = false := by simp [stack_is_empty, h]
  rw [gstack_pop_fst rok s h, stack_pop_fst rok s h]
  constructor
  · simp [gstack_peek, he]
  · simp [stack_peek, he2]

/-- Claim C8 witness: instantiation at stC8, where the top element is 11
and the shrink condition does not hold. -/
theorem C8_peek_pop_witness :
    stC8.size ≠ 0 ∧ gstack_peek stC8 = (gstack_pop true stC8).1 ∧
    stack_peek stC8 = (stack_pop true stC8).1 :=
  ⟨by decide, (C8_peek_pop stC8 true (by decide)).1,
   (C8_peek_pop stC8 true (by decide)).2⟩

/-- Claim C10: a push on a stack that is not full never consults the
allocator (the result is the same for every realloc outcome, so there is
no failure mode), succeeds, keeps capacity, allocation and element size,
and only writes the new element into slot size and increments size. -/
theorem C10_push_not_full (s : gstack α) (x : α) (rok : Bool)
    (h : s.size < s.cap) (hcap : s.cap ≤ SIZE_MAX) :
    gstack_push rok s x =
      (true, { s with data := fun i => if i = s.size then x else s.data i,
                      size := s.size + 1 }) ∧
    stack_push rok s x =
      (true, { s with data := fun i => if i = s.size then x else s.data i,
                      size := s.size + 1 }) := by
  have hge : ¬ s.size ≥ s.cap := not_le.mpr h
  have hWs : SIZE_MAX + 1 = W := by decide
  have hm : (s.size + 1) % W = s.size + 1 := Nat.mod_eq_of_lt (by omega)
  constructor <;> simp [gstack_push, stack_push, push_write, hge, hm]

/-- Claim C10 witness: instantiation at the not-full stack stC10 with a
failing allocator, showing the push still succeeds untouched by it. -/
theorem C10_push_not_full_witness :
    stC10.size < stC10.cap ∧
    gstack_push false stC10 9 =
      (true, { stC10 with
               data := fun i => if i = stC10.size then 9 else stC10.data i,
               size := stC10.size + 1 }) ∧
    stack_push false stC10 9 =
      (true, { stC10 with
               data := fun i => if i = stC10.size then 9 else stC10.data i,
               size := stC10.size + 1 }) :=
  ⟨by decide, (C10_push_not_full stC10 9 false (by decide) (by decide)).1,
   (C10_push_not_full stC10 9 false (by decide) (by decide)).2⟩

/-- State left by a pop that triggers the shrink path with a successful
realloc (gstack.h variant): size decremented, capacity and allocation
halved (floor). -/
lemma gstack_pop_snd_shrink_ok (s : gstack α) (h0 : s.size ≠ 0)
    (hc1 : s.size - 1 ≠ 0) (hc2 : s.size - 1 ≤ s.cap / 4) :
    (gstack_pop true s).2 =
      { s with size := s.size - 1, cap := s.cap / 2, alloc := s.cap / 2 } := by
  have he : gstack_is_empty s = false := by simp [gstack_is_empty, h0]
  simp only [gstack_pop, he, Bool.false_eq_true, if_false]
  split
  · split
    · split <;> rfl
    · simp_all
  · rename_i hnc
    exact absurd ⟨hc1, hc2⟩ hnc

/-- State left by a pop that triggers the shrink path with a successful
realloc (stack.h variant): same as the gstack.h variant. -/
lemma stack_pop_snd_shrink_ok (s : gstack α) (h0 : s.size ≠ 0)
    (hc1 : s.size - 1 ≠ 0) (hc2 : s.size - 1 ≤ s.cap / 4) :
    (stack_pop true s).2 =
      { s with size := s.size - 1, cap := s.cap / 2, alloc := s.cap / 2 } := by
  have he : stack_is_empty s = false := by simp [stack_is_empty, h0]
  simp only [stack_pop, he, Bool.false_eq_true, if_false]
  split
  · split
    · rfl
    · simp_all
  · rename_i hnc
    exact absurd ⟨hc1, hc2⟩ hnc

/-- State left by a pop that does not reach the shrink path (gstack.h
variant): only the size changes, independently of the allocator. -/
lemma gstack_pop_snd_noshrink (rok : Bool) (s : gstack α) (h0 : s.size ≠ 0)
    (hc : ¬ (s.size - 1 ≠ 0 ∧ s.size - 1 ≤ s.cap / 4)) :
    (gstack_pop rok s).2 = { s with size := s.size - 1 } := by
  have he : gstack_is_empty s = false := by simp [gstack_is_empty, h0]
  simp only [gstack_pop, he, Bool.false_eq_true, if_false]
  split
  · rename_i hcc
    exact absurd hcc hc
  · rfl

/-- State left by a pop that does not reach the shrink path (stack.h
variant). -/
lemma stack_pop_snd_noshrink (rok : Bool) (s : gstack α) (h0 : s.size ≠ 0)
    (hc : ¬ (s.size - 1 ≠ 0 ∧ s.size - 1 ≤ s.cap / 4)) :
    (stack_pop rok s).2 = { s with size := s.size - 1 } := by
  have he : stack_is_empty s = false := by simp [stack_is_empty, h0]
  simp only [stack_pop, he, Bool.false_eq_true, if_false]
  split
  · rename_i hcc
    exact absurd hcc hc
  · rfl

/-- Size after any pop on a non-empty stack, in both variants. -/
lemma pop_snd_size (rok : Bool) (s : gstack α) (h0 : s.size ≠ 0) :
    (gstack_pop rok s).2.size = s.size - 1 ∧
    (stack_pop rok s).2.size = s.size - 1 := by
  have he : gstack_is_empty s = false := by simp [gstack_is_empty, h0]
  have he2 : stack_is_empty s = false := by simp [stack_is_empty, h0]
  constructor
  · simp only [gstack_pop, he, Bool.false_eq_true, if_false]
    split
    · split
      · split <;> rfl
      · split <;> rfl
    · rfl
  · simp only [stack_pop, he2, Bool.false_eq_true, if_false]
    split
    · split <;> rfl
    · rfl

/-- Claim C3 (amended): a pop on a non-empty stack decrements the length,
and attempts a shrink exactly when the new length is nonzero and at most
capacity / 4; a successful shrink sets the capacity (and the allocation)
to capacity / 2 rounded DOWN in both variants — there is no rounding up
at odd capacities; when no shrink is attempted (in particular whenever
the new length is 0) the state changes only by the decremented length. -/
theorem C3_shrink_policy (s : gstack α) (h : s.size ≠ 0) :
    (∀ rok, (gstack_pop rok s).2.size = s.size - 1 ∧
            (stack_pop rok s).2.size = s.size - 1) ∧
    (s.size - 1 ≠ 0 → s.size - 1 ≤ s.cap / 4 →
      (gstack_pop true s).2 =
        { s with size := s.size - 1, cap := s.cap / 2,
                 alloc := s.cap / 2 } ∧
      (stack_pop true s).2 =
        { s with size := s.size - 1, cap := s.cap / 2,
                 alloc := s.cap / 2 }) ∧
    (¬ (s.size - 1 ≠ 0 ∧ s.size - 1 ≤ s.cap / 4) → ∀ rok,
      (gstack_pop rok s).2 = { s with size := s.size - 1 } ∧
      (stack_pop rok s).2 = { s with size := s.size - 1 }) := by
  refine ⟨fun rok => pop_snd_size rok s h, fun hc1 hc2 => ?_, fun hc rok => ?_⟩
  · exact ⟨gstack_pop_snd_shrink_ok s h hc1 hc2,
           stack_pop_snd_shrink_ok s h hc1 hc2⟩
  · exact ⟨gstack_pop_snd_noshrink rok s h hc,
           stack_pop_snd_noshrink rok s h hc⟩

/-- Claim C3 witness: instantiation at stC3 (capacity 5, size 2), whose
pop shrinks both variants to capacity 5 / 2 = 2. -/
theorem C3_shrink_policy_witness :
    stC3.size ≠ 0 ∧
    (gstack_pop true stC3).2 =
      { stC3 with size := stC3.size - 1, cap := stC3.cap / 2,
                  alloc := stC3.cap / 2 } ∧
    (stack_pop true stC3).2 =
      { stC3 with size := stC3.size - 1, cap := stC3.cap / 2,
                  alloc := stC3.cap / 2 } :=
  ⟨by decide,
   ((C3_shrink_policy stC3 (by decide)).2.1 (by decide) (by decide)).1,
   ((C3_shrink_policy stC3 (by decide)).2.1 (by decide) (by decide)).2⟩

/-- Claim C2 (amended): for a full stack, both variants double the
capacity when it is at most SIZE_MAX / 2 (succeeding when the doubled
capacity-size product fits and the realloc succeeds); above SIZE_MAX / 2
the stack.h variant grows linearly by BUFSIZ, failing without mutation
when that addition would overflow, while the gstack.h variant fails
outright, attempting no linear growth and leaving the state unchanged. -/
theorem C2_growth_policy (s : gstack α) (x : α) (h : s.size = s.cap) :
    (s.cap ≤ SIZE_MAX / 2 → 0 < s.memb_size →
      s.cap * 2 * s.memb_size ≤ SIZE_MAX →
      (gstack_push true s x).1 = true ∧
      (gstack_push true s x).2.cap = s.cap * 2 ∧
      (stack_push true s x).1 = true ∧
      (stack_push true s x).2.cap = s.cap * 2) ∧
    (SIZE_MAX / 2 < s.cap → ∀ rok, gstack_push rok s x = (false, s)) ∧
    (SIZE_MAX / 2 < s.cap → s.cap ≤ SIZE_MAX → SIZE_MAX < s.cap + BUFSIZ →
      ∀ rok, stack_push rok s x = (false, s)) ∧
    (SIZE_MAX / 2 < s.cap → s.cap + BUFSIZ ≤ SIZE_MAX → 0 < s.memb_size →
      (s.cap + BUFSIZ) * s.memb_size ≤ SIZE_MAX →
      (stack_push true s x).1 = true ∧
      (stack_push true s x).2.cap = s.cap + BUFSIZ) := by
  have hge : s.cap ≤ s.size := h ▸ Nat.le_refl s.cap
  have hW : SIZE_MAX + 1 = W := by decide
  have hH : SIZE_MAX / 2 * 2 + 2 = W := by decide
  have hB : BUFSIZ < W := by decide
  have hB1 : 0 < BUFSIZ := by decide
  refine ⟨fun h1 hm hp => ?_, fun h2 rok => ?_, fun h2 hle hov rok => ?_,
          fun h2 hnov hm hp => ?_⟩
  · have hn : ¬ SIZE_MAX / 2 < s.cap := not_lt.mpr h1
    have hmod : s.cap * 2 % W = s.cap * 2 := Nat.mod_eq_of_lt (by omega)
    have hg : ¬ SIZE_MAX / s.memb_size < s.cap * 2 := by
      rw [div_guard_iff s.memb_size (s.cap * 2) hm]
      omega
    have hsz : (s.size + 1) % W = s.size + 1 := Nat.mod_eq_of_lt (by omega)
    simp [gstack_push, stack_push, grow_realloc, push_write, hge, hn, hmod,
          hg, hsz]
  · simp [gstack_push, hge, h2]
  · have hmod : (s.cap + BUFSIZ) % W = s.cap + BUFSIZ - W := by
      rw [Nat.mod_eq_sub_mod (by omega)]
      exact Nat.mod_eq_of_lt (by omega)
    have hlt : s.cap + BUFSIZ - W < s.cap := by omega
    simp [stack_push, hge, h2, hmod, hlt]
  · have hmod : (s.cap + BUFSIZ) % W = s.cap + BUFSIZ :=
      Nat.mod_eq_of_lt (by omega)
    have hnlt : ¬ s.cap + BUFSIZ < s.cap := by omega
    have hg : ¬ SIZE_MAX / s.memb_size < s.cap + BUFSIZ := by
      rw [div_guard_iff s.memb_size (s.cap + BUFSIZ) hm]
      omega
    have hsz : (s.size + 1) % W = s.size + 1 := Nat.mod_eq_of_lt (by omega)
    simp [stack_push, grow_realloc, push_write, hge, h2, hmod, hnlt, hg, hsz]

/-- Claim C2 witness: instantiation at the full stack stC2 with capacity
2 ^ 63 above SIZE_MAX / 2: the gstack.h push fails with the state
untouched while the stack.h push succeeds, growing by BUFSIZ. -/
theorem C2_growth_policy_witness :
    stC2.size = stC2.cap ∧ gstack_push true stC2 0 = (false, stC2) ∧
    (stack_push true stC2 0).1 = true ∧
    (stack_push true stC2 0).2.cap = stC2.cap + BUFSIZ :=
  ⟨rfl, (C2_growth_policy stC2 0 rfl).2.1 (by decide) true,
   ((C2_growth_policy stC2 0 rfl).2.2.2 (by decide) (by decide) (by decide)
     (by decide)).1,
   ((C2_growth_policy stC2 0 rfl).2.2.2 (by decide) (by decide) (by decide)
     (by decide)).2⟩

/-- While the capacity is at most SIZE_MAX / 2, the two push variants
take the same branches and agree exactly. -/
lemma push_variants_eq (rok : Bool) (s : gstack α) (x : α)
    (h : s.cap ≤ SIZE_MAX / 2) :
    gstack_push rok s x = stack_push rok s x := by
  have hn : ¬ SIZE_MAX / 2 < s.cap := not_lt.mpr h
  simp [gstack_push, stack_push, hn]

/-- While no shrink happens at odd capacity, the two pop variants agree
exactly. -/
lemma pop_variants_eq (rok : Bool) (s : gstack α)
    (h : ¬ (s.size ≠ 0 ∧ s.size - 1 ≠ 0 ∧ s.size - 1 ≤ s.cap / 4 ∧
            s.cap % 2 = 1)) :
    gstack_pop rok s = stack_pop rok s := by
  by_cases h0 : s.size = 0
  · have he : gstack_is_empty s = true := by simp [gstack_is_empty, h0]
    have he2 : stack_is_empty s = true := by simp [stack_is_empty, h0]
    simp [gstack_pop, stack_pop, he, he2]
  · have he : gstack_is_empty s = false := by simp [gstack_is_empty, h0]
    have he2 : stack_is_empty s = false := by simp [stack_is_empty, h0]
    simp only [gstack_pop, stack_pop, he, he2, Bool.false_eq_true, if_false]
    split
    · rename_i hcc
      have hodd : s.cap % 2 = 0 := by
        rcases Nat.mod_two_eq_zero_or_one s.cap with h2 | h2
        · exact h2
        · exact absurd ⟨h0, hcc.1, hcc.2, h2⟩ h
      have hoddf : ¬ ({ s with size := s.size - 1 } : gstack α).cap % 2 ≠ 0 :=
        fun hx => hx hodd
      rw [if_neg hoddf]
      cases rok <;> rfl
    · rfl

/-- Under the step side condition the two variants take the same step. -/
lemma step_variants_eq (s : gstack α) (op : Op α) (h : okStep s op = true) :
    stepG s op = stepS s op := by
  cases op with
  | push r x =>
      rw [show okStep s (Op.push r x) = decide (s.cap ≤ SIZE_MAX / 2)
            from rfl] at h
      have hp := of_decide_eq_true h
      simp [stepG, stepS, push_variants_eq r s x hp]
  | pop r =>
      rw [show okStep s (Op.pop r) =
            decide (¬ (s.size ≠ 0 ∧ s.size - 1 ≠ 0 ∧
                       s.size - 1 ≤ s.cap / 4 ∧ s.cap % 2 = 1))
            from rfl] at h
      have hp := of_decide_eq_true h
      simp [stepG, stepS, pop_variants_eq r s hp]
  | peek => rfl
  | isFull => rfl
  | isEmpty => rfl
  | qsize => rfl

/-- Under the trace side condition the two variants produce the same
outputs and the same final state along a whole run. -/
lemma run_variants_eq (ops : List (Op α)) :
    ∀ s : gstack α, okTrace s ops = true → runG s ops = runS s ops := by
  induction ops with
  | nil => intro s _; rfl
  | cons op rest ih =>
      intro s h
      rw [show okTrace s (op :: rest) =
            (okStep s op && okTrace (stepG s op).2 rest) from rfl] at h
      rw [Bool.and_eq_true] at h
      have hst : stepG s op = stepS s op := step_variants_eq s op h.1
      have hrest : runG (stepS s op).2 rest = runS (stepS s op).2 rest :=
        ih (stepS s op).2 (hst ▸ h.2)
      show ((stepG s op).1 :: (runG (stepG s op).2 rest).1,
            (runG (stepG s op).2 rest).2) =
           ((stepS s op).1 :: (runS (stepS s op).2 rest).1,
            (runS (stepS s op).2 rest).2)
      rw [hst, hrest]

/-- Claim C9: the two variants are observationally equivalent on every
operation sequence in which no push happens while the capacity exceeds
SIZE_MAX / 2 and no shrink happens at odd capacity: create agrees on all
arguments, and such a run returns the same outputs and reaches the same
state, in particular the same length and capacity. -/
theorem C9_variants_equiv (hdrOk dataOk : Bool) (junk : α) (cap memb : Nat)
    (s : gstack α) (ops : List (Op α)) (h : okTrace s ops = true) :
    gstack_create hdrOk dataOk junk cap memb =
      stack_create hdrOk dataOk junk cap memb ∧
    runG s ops = runS s ops ∧
    (runG s ops).2.size = (runS s ops).2.size ∧
    (runG s ops).2.cap = (runS s ops).2.cap :=
  ⟨rfl, run_variants_eq ops s h, by rw [run_variants_eq ops s h],
   by rw [run_variants_eq ops s h]⟩

/-- Claim C9 witness: instantiation at stC9 and the trace opsC9, which
pushes twice, peeks, pops with an even-capacity shrink, and queries. -/
theorem C9_variants_equiv_witness :
    okTrace stC9 opsC9 = true ∧ runG stC9 opsC9 = runS stC9 opsC9 :=
  ⟨by decide,
   (C9_variants_equiv true true 0 4 8 stC9 opsC9 (by decide)).2.1⟩

end GStackModel
